import Mathlib

/-!
Verification of `battery_notifier.py`: a shallow embedding of the
settings store (`load_settings` / `save_settings`, lines 74-103), the
settings-UI save path (`save_and_close`, lines 140-159), and one tick of
the alert loop (`main_loop`, lines 187-219), together with theorems
settling the specified properties.
-/

/-- Alert state held in `last_alert` of `main_loop`: Python `None`,
`"low"` or `"high"`. -/
inductive AlertState
  | none
  | low
  | high
  deriving DecidableEq, Repr

/-- A battery sample as the loop sees it after line 197-198:
`current_percent = int(round(batt.percent))`, `current_charging =
bool(batt.power_plugged)`. -/
structure Sample where
  percent : Int
  charging : Bool
  deriving DecidableEq, Repr

/-- A message box shown by `show_notification_messagebox`; the percent is
the one interpolated into the title at lines 203 and 210. -/
inductive Alert
  | lowAlert (percent : Int)
  | highAlert (percent : Int)
  deriving DecidableEq, Repr

/-- What the external world does during one iteration of `main_loop`:
`psutil.sensors_battery()` raises, returns `None`, or returns a sample;
in the last case `notifyOk` records whether a notification display, if
attempted, completes without raising. -/
inductive TickEvent
  | readErr
  | noBattery
  | sample (s : Sample) (notifyOk : Bool)
  deriving DecidableEq, Repr

/-- Observable outcome of one iteration of `main_loop`: the value of
`last_alert` afterwards, the notifications displayed, the seconds slept
before the next iteration, whether that sleep was the normal line-219
sleep (`normalSleep = true`) or the line-194 backoff, and whether the
`except` clause at line 216 caught an exception. -/
structure TickResult where
  state : AlertState
  fired : List Alert
  delaySeconds : Int
  normalSleep : Bool
  caught : Bool
  deriving DecidableEq, Repr

/-- One iteration of the `while True` body of `main_loop` (lines
190-219).  `lowTh`, `highTh`, `poll` are `SETTINGS["low_threshold"]`,
`SETTINGS["high_threshold"]`, `SETTINGS["poll_seconds"]`.  When a
notification display raises, the assignment to `last_alert` on line 206
or 213 is never reached, so the prior state is kept. -/
def tick (lowTh highTh poll : Int) (last : AlertState) (ev : TickEvent) : TickResult :=
  match ev with
  | .readErr => ⟨last, [], max 5 poll, true, true⟩
  | .noBattery => ⟨last, [], 10, false, false⟩
  | .sample s notifyOk =>
      if s.charging = false ∧ s.percent ≤ lowTh then
        if last ≠ .low then
          if notifyOk then ⟨.low, [.lowAlert s.percent], max 5 poll, true, false⟩
          else ⟨last, [], max 5 poll, true, true⟩
        else ⟨last, [], max 5 poll, true, false⟩
      else if s.charging = true ∧ highTh ≤ s.percent then
        if last ≠ .high then
          if notifyOk then ⟨.high, [.highAlert s.percent], max 5 poll, true, false⟩
          else ⟨last, [], max 5 poll, true, true⟩
        else ⟨last, [], max 5 poll, true, false⟩
      else ⟨.none, [], max 5 poll, true, false⟩

/-- Run `main_loop` over a sequence of successful samples, collecting the
notifications fired at each tick. -/
def runTicks (lowTh highTh poll : Int) : AlertState → List Sample → List (List Alert)
  | _, [] => []
  | st, s :: rest =>
      let r := tick lowTh highTh poll st (.sample s true)
      r.fired :: runTicks lowTh highTh poll r.state rest

/-- Is this a "low" notification? -/
def isLowAlert : Alert → Bool
  | .lowAlert _ => true
  | .highAlert _ => false

/-- Is this a "high" notification? -/
def isHighAlert : Alert → Bool
  | .lowAlert _ => false
  | .highAlert _ => true

/-! ## Settings store -/

/-- A JSON scalar as `json.load` can produce it for a settings field. -/
inductive JVal
  | jnum (n : Int)
  | jbool (b : Bool)
  | jstr (s : String)
  deriving DecidableEq, Repr

/-- A JSON document: either an object (a Python `dict`, keys in
insertion order, later duplicates overwriting earlier ones on load) or
some other well-formed JSON value (array, string, number, ...), on which
`data.items()` does not exist. -/
inductive JTop
  | jobj (entries : List (String × JVal))
  | jnonObject

/-- State of the persisted `settings.json` file as `load_settings`
distinguishes it: absent (`os.path.isfile` false), unreadable or
malformed (`open`/`json.load` raises, caught at line 92), or readable
well-formed JSON content. -/
inductive FileState
  | absent
  | unreadable
  | content (t : JTop)

/-- The configuration record: `DEFAULTS.copy()` overlaid by the
persisted entries.  Values are JSON values, because `load_settings`
stores whatever `json.load` produced, unchecked. -/
structure Cfg where
  low_threshold : JVal
  high_threshold : JVal
  poll_seconds : JVal
  start_with_windows : JVal
  deriving DecidableEq, Repr

/-- `DEFAULTS` (lines 74-79). -/
def DEFAULTS : Cfg :=
  ⟨.jnum 20, .jnum 80, .jnum 60, .jbool true⟩

/-- One step of the overlay loop at lines 95-97: `if k in cfg: cfg[k] = v`.
A key outside the default set leaves the record unchanged. -/
def setKey (c : Cfg) (k : String) (v : JVal) : Cfg :=
  if k = "low_threshold" then { c with low_threshold := v }
  else if k = "high_threshold" then { c with high_threshold := v }
  else if k = "poll_seconds" then { c with poll_seconds := v }
  else if k = "start_with_windows" then { c with start_with_windows := v }
  else c

/-- The `for k, v in data.items()` loop of `load_settings`, starting from
`cfg = DEFAULTS.copy()` (or any record `c`). -/
def overlay (c : Cfg) : List (String × JVal) → Cfg
  | [] => c
  | kv :: rest => overlay (setKey c kv.1 kv.2) rest

/-- `load_settings` (lines 85-98).  An absent file leaves `data = {}`;
a read or parse failure is caught and leaves `data = {}`; a well-formed
JSON object is overlaid onto the defaults.  A well-formed non-object
document makes `data.items()` raise `AttributeError`, which nothing
catches: that is the `.error` case. -/
def load_settings : FileState → Except Unit Cfg
  | .absent => .ok DEFAULTS
  | .unreadable => .ok DEFAULTS
  | .content (.jobj d) => .ok (overlay DEFAULTS d)
  | .content .jnonObject => .error ()

/-- `save_settings` (lines 100-103): `json.dump` writes the full record
as a JSON object with the four keys. -/
def save_settings (c : Cfg) : FileState :=
  .content (.jobj
    [("low_threshold", c.low_threshold),
     ("high_threshold", c.high_threshold),
     ("poll_seconds", c.poll_seconds),
     ("start_with_windows", c.start_with_windows)])

/-- The value the overlay loop leaves for key `k`: the last occurrence
in the entry list, if any. -/
def lastVal (k : String) : List (String × JVal) → Option JVal
  | [] => Option.none
  | kv :: rest =>
      match lastVal k rest with
      | Option.some w => Option.some w
      | Option.none => if kv.1 = k then Option.some kv.2 else Option.none

/-- Modelled from the spec: the spec's kind-checked overlay step
("overlay the persisted value if present and of the same conceptual kind,
otherwise keep the default") — integers for the thresholds and the poll
interval, boolean for the startup flag.  This definition follows the
spec's words, for comparison with `setKey`, which follows the code. -/
def specSetKey (c : Cfg) (k : String) (v : JVal) : Cfg :=
  match v with
  | .jnum _ =>
      if k = "low_threshold" then { c with low_threshold := v }
      else if k = "high_threshold" then { c with high_threshold := v }
      else if k = "poll_seconds" then { c with poll_seconds := v }
      else c
  | .jbool _ =>
      if k = "start_with_windows" then { c with start_with_windows := v }
      else c
  | _ => c

/-- Modelled from the spec: kind-checked overlay of a persisted record,
starting from any record. -/
def specOverlayFrom (c : Cfg) : List (String × JVal) → Cfg
  | [] => c
  | kv :: rest => specOverlayFrom (specSetKey c kv.1 kv.2) rest

/-- Modelled from the spec: kind-checked overlay of a persisted record
onto the defaults. -/
def specOverlay (data : List (String × JVal)) : Cfg :=
  specOverlayFrom DEFAULTS data

/-! ## Settings UI save path -/

/-- A call to the startup-registration collaborator:
`enable_auto_startup` or `disable_auto_startup`. -/
inductive StartupCall
  | enable
  | disable
  deriving DecidableEq, Repr

/-- Outcome of `save_and_close`: the four stored fields (integers after
`int()` and clamping) and the startup-registration calls performed. -/
structure UISaveResult where
  low_threshold : Int
  high_threshold : Int
  poll_seconds : Int
  start_with_windows : Bool
  calls : List StartupCall
  deriving DecidableEq, Repr

/-- `save_and_close` (lines 140-159) on valid numeric input: clamp the
three numeric fields (lines 142-144), then diff the startup flag against
its previous value and call the startup registration only when it
changed (lines 146-151). -/
def save_and_close (lowIn highIn pollIn : Int) (startIn prevStart : Bool) : UISaveResult :=
  let low := max 1 (min 100 lowIn)
  let high := max 1 (min 100 highIn)
  let poll := max 5 (min 600 pollIn)
  if startIn ≠ prevStart then
    { low_threshold := low, high_threshold := high, poll_seconds := poll,
      start_with_windows := startIn,
      calls := if startIn then [.enable] else [.disable] }
  else
    { low_threshold := low, high_threshold := high, poll_seconds := poll,
      start_with_windows := prevStart, calls := [] }

/-! ## Helper lemmas -/

theorem setKey_low (c : Cfg) (k : String) (v : JVal) :
    (setKey c k v).low_threshold =
      if k = "low_threshold" then v else c.low_threshold := by
  unfold setKey; split_ifs <;> simp_all

theorem setKey_high (c : Cfg) (k : String) (v : JVal) :
    (setKey c k v).high_threshold =
      if k = "high_threshold" then v else c.high_threshold := by
  unfold setKey; split_ifs <;> simp_all

theorem setKey_poll (c : Cfg) (k : String) (v : JVal) :
    (setKey c k v).poll_seconds =
      if k = "poll_seconds" then v else c.poll_seconds := by
  unfold setKey; split_ifs <;> simp_all

theorem setKey_start (c : Cfg) (k : String) (v : JVal) :
    (setKey c k v).start_with_windows =
      if k = "start_with_windows" then v else c.start_with_windows := by
  unfold setKey; split_ifs <;> simp_all

theorem overlay_low (c : Cfg) (d : List (String × JVal)) :
    (overlay c d).low_threshold =
      (lastVal "low_threshold" d).getD c.low_threshold := by
  induction d generalizing c with
  | nil => rfl
  | cons kv rest ih =>
      show (overlay (setKey c kv.1 kv.2) rest).low_threshold = _
      rw [ih]
      rcases h : lastVal "low_threshold" rest with _ | w <;>
        simp [lastVal, h, setKey_low] <;> split_ifs <;> simp

theorem overlay_high (c : Cfg) (d : List (String × JVal)) :
    (overlay c d).high_threshold =
      (lastVal "high_threshold" d).getD c.high_threshold := by
  induction d generalizing c with
  | nil => rfl
  | cons kv rest ih =>
      show (overlay (setKey c kv.1 kv.2) rest).high_threshold = _
      rw [ih]
      rcases h : lastVal "high_threshold" rest with _ | w <;>
        simp [lastVal, h, setKey_high] <;> split_ifs <;> simp

theorem overlay_poll (c : Cfg) (d : List (String × JVal)) :
    (overlay c d).poll_seconds =
      (lastVal "poll_seconds" d).getD c.poll_seconds := by
  induction d generalizing c with
  | nil => rfl
  | cons kv rest ih =>
      show (overlay (setKey c kv.1 kv.2) rest).poll_seconds = _
      rw [ih]
      rcases h : lastVal "poll_seconds" rest with _ | w <;>
        simp [lastVal, h, setKey_poll] <;> split_ifs <;> simp

theorem overlay_start (c : Cfg) (d : List (String × JVal)) :
    (overlay c d).start_with_windows =
      (lastVal "start_with_windows" d).getD c.start_with_windows := by
  induction d generalizing c with
  | nil => rfl
  | cons kv rest ih =>
      show (overlay (setKey c kv.1 kv.2) rest).start_with_windows = _
      rw [ih]
      rcases h : lastVal "start_with_windows" rest with _ | w <;>
        simp [lastVal, h, setKey_start] <;> split_ifs <;> simp

theorem tick_state_cat (lowTh highTh poll : Int) (l : AlertState) (s : Sample) :
    (tick lowTh highTh poll l (.sample s true)).state =
      (if s.charging = false ∧ s.percent ≤ lowTh then .low
       else if s.charging = true ∧ highTh ≤ s.percent then .high
       else .none) := by
  simp only [tick]
  split_ifs <;> simp_all

/-! ## Claims -/

/-- C1: on a tick with an available sample, a "low" notification fires
iff the sample is not charging with percent at most the low threshold
and the prior alert state is not `low`; a "high" notification fires iff
the sample is charging with percent at least the high threshold and the
prior state is not `high`.  In particular, the sample sequence
(15,false),(14,false),(16,false) with thresholds 20/80 from state `none`
fires exactly one "low" notification, at the first sample, and
(90,true),(85,true) fires exactly one "high" notification, at the first
sample. -/
theorem alert_notification_dedup (lowTh highTh poll : Int) (last : AlertState) (s : Sample) :
    ((tick lowTh highTh poll last (.sample s true)).fired.any isLowAlert = true ↔
      s.charging = false ∧ s.percent ≤ lowTh ∧ last ≠ .low) ∧
    ((tick lowTh highTh poll last (.sample s true)).fired.any isHighAlert = true ↔
      s.charging = true ∧ highTh ≤ s.percent ∧ last ≠ .high) ∧
    runTicks 20 80 60 .none [⟨15, false⟩, ⟨14, false⟩, ⟨16, false⟩] =
      [[.lowAlert 15], [], []] ∧
    runTicks 20 80 60 .none [⟨90, true⟩, ⟨85, true⟩] = [[.highAlert 90], []] := by
  refine ⟨?_, ?_, by decide, by decide⟩ <;>
    (simp only [tick]; split_ifs <;> simp_all [isLowAlert, isHighAlert])

/-- C2: a tick whose available sample satisfies neither the low
condition nor the high condition resets the alert state to `none` and
fires nothing, whatever the prior state was. -/
theorem neutral_band_rearm (lowTh highTh poll : Int) (last : AlertState) (s : Sample)
    (hlow : ¬(s.charging = false ∧ s.percent ≤ lowTh))
    (hhigh : ¬(s.charging = true ∧ highTh ≤ s.percent)) :
    (tick lowTh highTh poll last (.sample s true)).state = .none ∧
    (tick lowTh highTh poll last (.sample s true)).fired = [] := by
  simp only [tick]
  split_ifs <;> simp_all

/-- Witness for C2: from state `low`, the sample (50, not charging) with
the default thresholds resets the state to `none` without firing. -/
theorem neutral_band_rearm_witness :
    (tick 20 80 60 .low (.sample ⟨50, false⟩ true)).state = .none ∧
    (tick 20 80 60 .low (.sample ⟨50, false⟩ true)).fired = [] :=
  neutral_band_rearm 20 80 60 .low ⟨50, false⟩ (by decide) (by decide)

/-- C3: any exception raised inside a poll tick (telemetry read or
notification display) is caught; the alert state keeps the value it had
when the exception was raised, no notification is recorded, and the loop
proceeds to the next tick after the normal poll delay. -/
theorem tick_exception_contained (lowTh highTh poll : Int) (last : AlertState) (ev : TickEvent)
    (h : (tick lowTh highTh poll last ev).caught = true) :
    (tick lowTh highTh poll last ev).state = last ∧
    (tick lowTh highTh poll last ev).fired = [] ∧
    (tick lowTh highTh poll last ev).normalSleep = true ∧
    (tick lowTh highTh poll last ev).delaySeconds = max 5 poll := by
  cases ev with
  | readErr => exact ⟨rfl, rfl, rfl, rfl⟩
  | noBattery => exact absurd h (by simp [tick])
  | sample s ok =>
      simp only [tick] at h ⊢
      split_ifs at h ⊢ <;> simp_all

/-- Witness for C3: a failing telemetry read with default settings and
prior state `none` is caught, keeps the state, and sleeps the normal
poll delay. -/
theorem tick_exception_contained_witness :
    (tick 20 80 60 .none .readErr).caught = true ∧
    ((tick 20 80 60 .none .readErr).state = .none ∧
     (tick 20 80 60 .none .readErr).fired = [] ∧
     (tick 20 80 60 .none .readErr).normalSleep = true ∧
     (tick 20 80 60 .none .readErr).delaySeconds = max 5 60) :=
  ⟨by decide, tick_exception_contained 20 80 60 .none .readErr (by decide)⟩

/-- C4 (amended): `load_settings` on a well-formed JSON object overlays
the persisted entries onto the defaults with no kind check: each of the
four default keys gets the last persisted value for that key, whatever
its kind, and keeps the default when the key is absent; unknown keys are
ignored (the record has only the four fields). -/
theorem load_overlay_untyped (d : List (String × JVal)) :
    load_settings (.content (.jobj d)) = .ok (overlay DEFAULTS d) ∧
    (overlay DEFAULTS d).low_threshold = (lastVal "low_threshold" d).getD (.jnum 20) ∧
    (overlay DEFAULTS d).high_threshold = (lastVal "high_threshold" d).getD (.jnum 80) ∧
    (overlay DEFAULTS d).poll_seconds = (lastVal "poll_seconds" d).getD (.jnum 60) ∧
    (overlay DEFAULTS d).start_with_windows = (lastVal "start_with_windows" d).getD (.jbool true) :=
  ⟨rfl, overlay_low DEFAULTS d, overlay_high DEFAULTS d,
   overlay_poll DEFAULTS d, overlay_start DEFAULTS d⟩

/-- C4 (counterexample): a persisted record holding a string under
`low_threshold` — present but not of the integer kind of the default —
is kept by `load_settings` as-is, while the spec's kind-checked overlay
(`specOverlay`) would keep the default 20. -/
theorem load_kind_check_cex :
    load_settings (.content (.jobj [("low_threshold", .jstr "oops")])) =
      .ok { DEFAULTS with low_threshold := .jstr "oops" } ∧
    specOverlay [("low_threshold", .jstr "oops")] = DEFAULTS ∧
    ({ DEFAULTS with low_threshold := JVal.jstr "oops" } : Cfg).low_threshold ≠
      DEFAULTS.low_threshold :=
  ⟨rfl, rfl, by decide⟩

/-- C5 (amended): on a tick where telemetry yields no sample, the loop
sleeps a fixed 10-second backoff, skips the normal poll-interval sleep
for that tick, changes no state, and fires nothing; 10 seconds is
shorter than the default 60-second poll interval (though not shorter
than a configured interval of less than 10 seconds). -/
theorem tick_noBattery_backoff (lowTh highTh poll : Int) (last : AlertState) :
    tick lowTh highTh poll last .noBattery =
      { state := last, fired := [], delaySeconds := 10,
        normalSleep := false, caught := false } ∧
    (tick lowTh highTh poll last .noBattery).delaySeconds < 60 :=
  ⟨rfl, by norm_num [tick]⟩

/-- C5 (counterexample): with the poll interval configured to 5 seconds
(a valid value, reachable from the settings UI), the 10-second
no-battery backoff is not shorter than the configured poll interval. -/
theorem backoff_not_shorter_cex :
    (tick 20 80 5 .none .noBattery).delaySeconds = 10 ∧
    (tick 20 80 5 .none .noBattery).normalSleep = false ∧
    ¬((tick 20 80 5 .none .noBattery).delaySeconds < 5) := by
  decide

/-- C6: `load_settings` is supposed never to raise, yet a persisted file
holding well-formed JSON that is not an object (for example the array
`[1, 2]`) makes `data.items()` raise an uncaught `AttributeError`, which
propagates to the caller. -/
theorem load_raises_on_nonobject :
    load_settings (.content .jnonObject) = .error () :=
  rfl

/-- C7: saving a settings record whose thresholds are integers in
[1,100], whose poll interval is an integer at least 5, and whose startup
flag is a boolean, then loading, returns exactly that record, integers
as integers and booleans as booleans. -/
theorem save_load_roundtrip (a b p : Int) (w : Bool)
    (ha1 : 1 ≤ a) (ha2 : a ≤ 100) (hb1 : 1 ≤ b) (hb2 : b ≤ 100) (hp : 5 ≤ p) :
    load_settings (save_settings ⟨.jnum a, .jnum b, .jnum p, .jbool w⟩) =
      .ok ⟨.jnum a, .jnum b, .jnum p, .jbool w⟩ :=
  rfl

/-- Witness for C7: the default record round-trips. -/
theorem save_load_roundtrip_witness :
    load_settings (save_settings ⟨.jnum 20, .jnum 80, .jnum 60, .jbool true⟩) =
      .ok ⟨.jnum 20, .jnum 80, .jnum 60, .jbool true⟩ :=
  save_load_roundtrip 20 80 60 true (by decide) (by decide) (by decide)
    (by decide) (by decide)

/-- C8: the settings-UI save path stores the low and high thresholds
clamped to [1,100] and the poll interval clamped to [5,600]; in
particular low input 0 stores 1 and poll input 2 stores 5. -/
theorem ui_save_clamps (lowIn highIn pollIn : Int) (startIn prevStart : Bool) :
    (save_and_close lowIn highIn pollIn startIn prevStart).low_threshold =
      max 1 (min 100 lowIn) ∧
    (save_and_close lowIn highIn pollIn startIn prevStart).high_threshold =
      max 1 (min 100 highIn) ∧
    (save_and_close lowIn highIn pollIn startIn prevStart).poll_seconds =
      max 5 (min 600 pollIn) ∧
    (save_and_close 0 80 2 true true).low_threshold = 1 ∧
    (save_and_close 0 80 2 true true).poll_seconds = 5 := by
  refine ⟨?_, ?_, ?_, by decide, by decide⟩ <;>
    (simp only [save_and_close]; split_ifs <;> rfl)

/-- C9: the settings-UI save path calls the startup registration iff the
saved startup flag differs from its previous value: toggling false→true
performs exactly one `enable` call and no `disable`, toggling true→false
exactly one `disable` call, and saving with the flag unchanged performs
no call at all. -/
theorem ui_save_startup_calls (lowIn highIn pollIn : Int) (startIn prevStart : Bool) :
    (save_and_close lowIn highIn pollIn startIn prevStart).calls =
      (if startIn = prevStart then []
       else if startIn then [.enable] else [.disable]) := by
  simp only [save_and_close]
  cases startIn <;> cases prevStart <;> simp

/-- C10: the alert state after a tick with an available sample (and a
successful notification display) is determined by the sample and the
thresholds alone — `low`, `high`, or `none` by the two threshold
conditions — independently of the prior alert state, which only
influences whether a notification fires; at most one notification fires
per tick. -/
theorem tick_state_noninterference (lowTh highTh poll : Int) (l1 l2 : AlertState) (s : Sample) :
    (tick lowTh highTh poll l1 (.sample s true)).state =
      (tick lowTh highTh poll l2 (.sample s true)).state ∧
    (tick lowTh highTh poll l1 (.sample s true)).state =
      (if s.charging = false ∧ s.percent ≤ lowTh then .low
       else if s.charging = true ∧ highTh ≤ s.percent then .high
       else .none) ∧
    (tick lowTh highTh poll l1 (.sample s true)).fired.length ≤ 1 := by
  refine ⟨?_, tick_state_cat lowTh highTh poll l1 s, ?_⟩
  · rw [tick_state_cat, tick_state_cat]
  · simp only [tick]
    split_ifs <;> simp
